import Mathlib

/-!
Shallow embedding of the LearnSathi friendship service
(`backend/src/controllers/user.controller.js`) and of the client theme store
(`frontend/src/store/useThemeStore.js`).

The database is modelled as two association lists keyed by id strings:
one for `User` documents and one for `FriendRequest` documents.  Each
controller becomes a pure function from the database state (plus the
request parameters) to the new database state together with an HTTP-style
response.  Mongoose details are translated as they behave at runtime:

* `mongoose.Types.ObjectId.isValid` on a string accepts a 12-character
  string or a 24-character hex string;
* `MongooseArray.includes` compares ids by value (mongoose casts the
  argument before comparing), so a user's `friends` array is a list of id
  strings with ordinary membership;
* `$addToSet` appends an element only when it is not yet present;
* `findByIdAndUpdate` on a missing id is a silent no-op;
* `FriendRequest.create` with a colliding `_id` raises the store's
  duplicate-key error, which the handler's catch-block turns into a 500
  with the transaction aborted (database unchanged);
* a populate with `match: { _id: { $ne: userId } }` resolves to `null`
  both when the referenced user is absent and when it is the caller.
-/

namespace LearnSathi

/-- One hex digit, as accepted by `ObjectId.isValid` for 24-char strings. -/
def isHexChar (c : Char) : Bool :=
  c.isDigit || (('a' ≤ c) && (c ≤ 'f')) || (('A' ≤ c) && (c ≤ 'F'))

/-- `mongoose.Types.ObjectId.isValid` on a string argument. -/
def isValidObjectId (s : String) : Bool :=
  s.length == 12 || (s.length == 24 && s.toList.all isHexChar)

/-- A `User` document (fields read by the controllers). -/
structure UserRec where
  fullName : String
  profilePic : String
  nativeLanguage : String
  learningLanguage : String
  isOnboarded : Bool
  friends : List String
deriving Repr, DecidableEq

/-- Status of a friend request. -/
inductive ReqStatus where
  | pending
  | accepted
deriving Repr, DecidableEq

/-- A `FriendRequest` document. -/
structure FriendReq where
  sender : String
  recipient : String
  status : ReqStatus
deriving Repr, DecidableEq

/-- The database: `User` and `FriendRequest` collections as assoc lists
keyed by `_id` strings. -/
structure DB where
  users : List (String × UserRec)
  requests : List (String × FriendReq)
deriving Repr, DecidableEq

/-- `findById` over an assoc-list collection. -/
def alistFind (l : List (String × α)) (k : String) : Option α :=
  (l.find? (fun p => p.1 == k)).map Prod.snd

/-- `findByIdAndUpdate` over an assoc-list collection: rewrites the value
at key `k`, a no-op when `k` is absent. -/
def alistUpdate (l : List (String × α)) (k : String) (f : α → α) :
    List (String × α) :=
  l.map (fun p => if p.1 == k then (p.1, f p.2) else p)

/-- `User.findById`. -/
def lookupUser (db : DB) (id : String) : Option UserRec :=
  alistFind db.users id

/-- `FriendRequest.findById`. -/
def lookupReq (db : DB) (id : String) : Option FriendReq :=
  alistFind db.requests id

/-- `$addToSet`: append only when absent (idempotent add, never an error). -/
def addToSet (l : List String) (x : String) : List String :=
  if l.contains x then l else l ++ [x]

/-- The `FriendRequest.findOne($or: [{sender: a, recipient: b}, {sender: b,
recipient: a}])` query of `sendFriendRequest`. -/
def findExistingRequest (db : DB) (a b : String) : Option FriendReq :=
  (db.requests.find? (fun p =>
      (p.2.sender == a && p.2.recipient == b) ||
      (p.2.sender == b && p.2.recipient == a))).map Prod.snd

/-- Responses of `sendFriendRequest`, one constructor per exit path. -/
inductive SendResp where
  | invalidUserId
  | selfRequest
  | userNotFound
  | alreadyFriends
  | requestConflict (message : String)
  | serverError
  | created (id : String) (fr : FriendReq)
deriving Repr, DecidableEq

/-- HTTP status code of a `sendFriendRequest` response. -/
def SendResp.code : SendResp → Nat
  | .invalidUserId => 400
  | .selfRequest => 400
  | .userNotFound => 404
  | .alreadyFriends => 400
  | .requestConflict _ => 400
  | .serverError => 500
  | .created _ _ => 201

/-- `sendFriendRequest` (controller lines 51-117).  `newReqId` stands for
the `_id` the store assigns to the created document; a collision with an
existing `_id` is the store's duplicate-key error, caught as a 500 with
the transaction rolled back. -/
def sendFriendRequest (db : DB) (myId recipientId newReqId : String) :
    DB × SendResp :=
  if !isValidObjectId recipientId then (db, .invalidUserId)
  else if myId == recipientId then (db, .selfRequest)
  else
    match lookupUser db myId, lookupUser db recipientId with
    | some currentUser, some recipient =>
      if currentUser.friends.contains recipientId
          || recipient.friends.contains myId then
        (db, .alreadyFriends)
      else
        match findExistingRequest db myId recipientId with
        | some existingRequest =>
          (db, .requestConflict
            (if existingRequest.status == .pending then
              "Request already pending"
            else
              "Already connected"))
        | none =>
          if (lookupReq db newReqId).isSome then (db, .serverError)
          else
            let fr : FriendReq :=
              { sender := myId, recipient := recipientId, status := .pending }
            ({ db with requests := db.requests ++ [(newReqId, fr)] },
             .created newReqId fr)
    | _, _ => (db, .userNotFound)

/-- Responses of `acceptFriendRequest`, one constructor per exit path. -/
inductive AcceptResp where
  | invalidRequestId
  | requestNotFound
  | unauthorized
  | alreadyProcessed
  | accepted
deriving Repr, DecidableEq

/-- HTTP status code of an `acceptFriendRequest` response. -/
def AcceptResp.code : AcceptResp → Nat
  | .invalidRequestId => 400
  | .requestNotFound => 404
  | .unauthorized => 403
  | .alreadyProcessed => 400
  | .accepted => 200

/-- `acceptFriendRequest` (controller lines 119-174). -/
def acceptFriendRequest (db : DB) (callerId requestId : String) :
    DB × AcceptResp :=
  if !isValidObjectId requestId then (db, .invalidRequestId)
  else
    match lookupReq db requestId with
    | none => (db, .requestNotFound)
    | some friendRequest =>
      if friendRequest.recipient != callerId then (db, .unauthorized)
      else if friendRequest.status != .pending then (db, .alreadyProcessed)
      else
        let db1 : DB :=
          { db with
            requests := alistUpdate db.requests requestId
              (fun r => { r with status := .accepted }) }
        let db2 : DB :=
          { db1 with
            users := alistUpdate db1.users friendRequest.sender
              (fun u => { u with
                friends := addToSet u.friends friendRequest.recipient }) }
        let db3 : DB :=
          { db2 with
            users := alistUpdate db2.users friendRequest.recipient
              (fun u => { u with
                friends := addToSet u.friends friendRequest.sender }) }
        (db3, .accepted)

/-- Summary projection selected by `getRecommendedUsers` and the pending
populates: `fullName profilePic nativeLanguage learningLanguage`. -/
structure UserSummary where
  fullName : String
  profilePic : String
  nativeLanguage : String
  learningLanguage : String
deriving Repr, DecidableEq

/-- Project a user document to its summary fields. -/
def summary (u : UserRec) : UserSummary :=
  { fullName := u.fullName, profilePic := u.profilePic,
    nativeLanguage := u.nativeLanguage,
    learningLanguage := u.learningLanguage }

/-- `getRecommendedUsers` (controller lines 5-31): `none` is the 404 when
the caller record is missing; otherwise the `$nin`-filtered onboarded
users with their ids. -/
def getRecommendedUsers (db : DB) (currentUserId : String) :
    Option (List (String × UserSummary)) :=
  match lookupUser db currentUserId with
  | none => none
  | some currentUser =>
    let friendIds := currentUser.friends ++ [currentUserId]
    some ((db.users.filter (fun p =>
        !friendIds.contains p.1 && p.2.isOnboarded)).map
      (fun p => (p.1, summary p.2)))

/-- Name-and-avatar projection used by the accepted-requests populate
(`select: "fullName profilePic"`). -/
structure PartyInfo where
  fullName : String
  profilePic : String
deriving Repr, DecidableEq

/-- The `populate` of the accepted list with `match: {_id: {$ne: userId}}`:
resolves to `none` when the referenced user is the caller (excluded by the
match) or does not exist. -/
def populateParty (db : DB) (userId partyId : String) : Option PartyInfo :=
  if partyId == userId then none
  else
    match lookupUser db partyId with
    | some u => some { fullName := u.fullName, profilePic := u.profilePic }
    | none => none

/-- The raw accepted-requests query of `getFriendRequests` (lines 186-205):
accepted requests with the caller as sender or recipient, each with its
two populated parties. -/
def acceptedReqsQuery (db : DB) (userId : String) :
    List (String × FriendReq × Option PartyInfo × Option PartyInfo) :=
  (db.requests.filter (fun p =>
      p.2.status == .accepted &&
      (p.2.sender == userId || p.2.recipient == userId))).map
    (fun p => (p.1, p.2, populateParty db userId p.2.sender,
               populateParty db userId p.2.recipient))

/-- The `acceptedReqs` value returned by `getFriendRequests` after the
null filter at lines 208-210. -/
def getFriendRequests_accepted (db : DB) (userId : String) :
    List (String × FriendReq × Option PartyInfo × Option PartyInfo) :=
  (acceptedReqsQuery db userId).filter
    (fun e => e.2.2.1.isSome && e.2.2.2.isSome)

/-- The `incomingReqs` value of `getFriendRequests` (lines 181-184):
pending requests to the caller, sender populated to summary fields
(no match clause, so a missing sender simply populates as `none`). -/
def getFriendRequests_incoming (db : DB) (userId : String) :
    List (String × FriendReq × Option UserSummary) :=
  (db.requests.filter (fun p =>
      p.2.recipient == userId && p.2.status == .pending)).map
    (fun p => (p.1, p.2, (lookupUser db p.2.sender).map summary))

/-- `getOutgoingFriendReqs` (lines 222-234): pending requests from the
caller, recipient populated to summary fields. -/
def getOutgoingFriendReqs (db : DB) (userId : String) :
    List (String × FriendReq × Option UserSummary) :=
  (db.requests.filter (fun p =>
      p.2.sender == userId && p.2.status == .pending)).map
    (fun p => (p.1, p.2, (lookupUser db p.2.recipient).map summary))

/-- `getMyFriends` (lines 33-49): the caller's friend list populated to
summaries; `none` is the 404 when the caller record is missing.  A friend
id that no longer resolves is dropped by the populate. -/
def getMyFriends (db : DB) (userId : String) :
    Option (List UserSummary) :=
  match lookupUser db userId with
  | none => none
  | some u => some (u.friends.filterMap (fun fid =>
      (lookupUser db fid).map summary))

/-- One inbound API call, with the identities the authenticated route
supplies; the state-changing operations carry their parameters, the
read-only ones are listed so that the trace semantics ranges over the
whole controller surface. -/
inductive Op where
  | send (myId recipientId newReqId : String)
  | accept (callerId requestId : String)
  | getRecommended (callerId : String)
  | getFriends (callerId : String)
  | getRequests (callerId : String)
  | getOutgoing (callerId : String)
deriving Repr, DecidableEq

/-- Database transition of one API call (read-only calls leave the
database unchanged). -/
def step (db : DB) : Op → DB
  | .send m r n => (sendFriendRequest db m r n).1
  | .accept c r => (acceptFriendRequest db c r).1
  | .getRecommended _ => db
  | .getFriends _ => db
  | .getRequests _ => db
  | .getOutgoing _ => db

/-!  Theme store (`frontend/src/store/useThemeStore.js`). -/

/-- JavaScript `x || dflt` on `localStorage.getItem`'s `string | null`:
`null` and the empty string are falsy. -/
def jsOrDefault (s : Option String) (dflt : String) : String :=
  match s with
  | none => dflt
  | some v => if v = "" then dflt else v

/-- The theme store state: the value persisted in `localStorage` under key
`"ChatApp"` (`none` when the key is absent) and the in-memory `theme`. -/
structure ThemeState where
  storage : Option String
  theme : String
deriving Repr, DecidableEq

/-- Store creation: `theme: localStorage.getItem("ChatApp") || "forest"`. -/
def initThemeStore (storage : Option String) : ThemeState :=
  { storage := storage, theme := jsOrDefault storage "forest" }

/-- `setTheme`: persist under `"ChatApp"`, then set the state. -/
def setTheme (st : ThemeState) (t : String) : ThemeState :=
  { st with storage := some t, theme := t }

/-!  Specification-side descriptions, for the refinement claims about the
order of precondition checks.  These transcribe the spec's words (§4.1),
not the controller code, and are compared with the embedded controllers
in the theorems below. -/

/-- The five `sendFriendRequest` failure classes named by the spec, in its
numbered order. -/
inductive SendErr where
  | invalidRecipientId
  | selfRequest
  | missingUser
  | alreadyFriends
  | existingRequest (st : ReqStatus)
deriving Repr, DecidableEq

/-- The spec's error taxonomy code for each `sendFriendRequest` failure:
InvalidArgument and Conflict surface as 400, NotFound as 404. -/
def SendErr.code : SendErr → Nat
  | .invalidRecipientId => 400
  | .selfRequest => 400
  | .missingUser => 404
  | .alreadyFriends => 400
  | .existingRequest _ => 400

/-- The response the spec prescribes for each `sendFriendRequest`
failure, with the message of an existing-request conflict distinguishing
"already pending" from "already connected" by the existing status. -/
def SendErr.toResp : SendErr → SendResp
  | .invalidRecipientId => .invalidUserId
  | .selfRequest => .selfRequest
  | .missingUser => .userNotFound
  | .alreadyFriends => .alreadyFriends
  | .existingRequest st => .requestConflict
      (if st == .pending then "Request already pending" else "Already connected")

/-- Spec §4.1 `sendFriendRequest` preconditions, "checked in order, first
failure wins": (1) structurally valid recipient id, (2) caller ≠
recipient, (3) both records exist, (4) neither friend set contains the
other, (5) no existing request between the unordered pair. -/
def specSendPrecheck (db : DB) (callerId recipientId : String) :
    Option SendErr :=
  if isValidObjectId recipientId = false then some .invalidRecipientId
  else if callerId = recipientId then some .selfRequest
  else
    match lookupUser db callerId, lookupUser db recipientId with
    | none, _ => some .missingUser
    | _, none => some .missingUser
    | some caller, some recipient =>
      if caller.friends.contains recipientId
          || recipient.friends.contains callerId then
        some .alreadyFriends
      else
        match findExistingRequest db callerId recipientId with
        | some existing => some (.existingRequest existing.status)
        | none => none

/-- The four `acceptFriendRequest` failure classes named by the spec, in
its stated precedence. -/
inductive AcceptErr where
  | invalidRequestId
  | requestMissing
  | notRecipient
  | alreadyProcessed
deriving Repr, DecidableEq

/-- The spec's error taxonomy code for each `acceptFriendRequest`
failure: InvalidArgument 400, NotFound 404, Forbidden 403, Conflict 400. -/
def AcceptErr.code : AcceptErr → Nat
  | .invalidRequestId => 400
  | .requestMissing => 404
  | .notRecipient => 403
  | .alreadyProcessed => 400

/-- The response the spec prescribes for each `acceptFriendRequest`
failure. -/
def AcceptErr.toResp : AcceptErr → AcceptResp
  | .invalidRequestId => .invalidRequestId
  | .requestMissing => .requestNotFound
  | .notRecipient => .unauthorized
  | .alreadyProcessed => .alreadyProcessed

/-- Spec §4.1 `acceptFriendRequest` preconditions in stated precedence:
structurally valid request id, request exists, caller is the recipient,
status is pending. -/
def specAcceptPrecheck (db : DB) (callerId requestId : String) :
    Option AcceptErr :=
  if isValidObjectId requestId = false then some .invalidRequestId
  else
    match lookupReq db requestId with
    | none => some .requestMissing
    | some fr =>
      if fr.recipient ≠ callerId then some .notRecipient
      else if fr.status ≠ .pending then some .alreadyProcessed
      else none

/-!  Assoc-list helper lemmas. -/

/-- `alistFind` on a cons: the head wins when its key matches. -/
theorem alistFind_cons (p : String × α) (l : List (String × α))
    (k : String) :
    alistFind (p :: l) k = if p.1 = k then some p.2 else alistFind l k := by
  by_cases h : p.1 = k
  · simp [alistFind, List.find?_cons, h]
  · simp [alistFind, List.find?_cons, h]

/-- `alistUpdate` on a cons rewrites the head exactly when its key
matches. -/
theorem alistUpdate_cons (p : String × α) (l : List (String × α))
    (k : String) (f : α → α) :
    alistUpdate (p :: l) k f =
      (if p.1 = k then (p.1, f p.2) else p) :: alistUpdate l k f := by
  by_cases h : p.1 = k
  · simp [alistUpdate, h]
  · simp [alistUpdate, h]

/-- Updating never changes which key a lookup finds: looking up `k2`
after rewriting key `k` sees the rewrite exactly when `k2 = k`. -/
theorem alistFind_update (l : List (String × α)) (k k2 : String)
    (f : α → α) :
    alistFind (alistUpdate l k f) k2 =
      if k2 = k then (alistFind l k2).map f else alistFind l k2 := by
  induction l with
  | nil => simp [alistFind, alistUpdate]
  | cons p l ih =>
    rw [alistUpdate_cons]
    by_cases hpk : p.1 = k
    · by_cases hpk2 : p.1 = k2
      · have hk2 : k2 = k := hpk2 ▸ hpk
        simp [alistFind_cons, hpk, hpk2, hk2]
      · have hkk2 : ¬ k = k2 := fun h => hpk2 (hpk.trans h)
        have hk2k : ¬ k2 = k := fun h => hkk2 h.symm
        simp [alistFind_cons, hpk, hpk2, hkk2, hk2k, ih]
    · by_cases hpk2 : p.1 = k2
      · have hk2 : ¬ k2 = k := fun h => hpk (hpk2.trans h)
        simp [alistFind_cons, hpk, hpk2, hk2]
      · simp [alistFind_cons, hpk, hpk2, ih]

/-- Rewriting an absent key is a no-op (mongoose `findByIdAndUpdate` on a
missing id updates nothing). -/
theorem alistUpdate_absent (l : List (String × α)) (k : String)
    (f : α → α) (h : alistFind l k = none) :
    alistUpdate l k f = l := by
  induction l with
  | nil => rfl
  | cons p l ih =>
    rw [alistFind_cons] at h
    by_cases hpk : p.1 = k
    · rw [if_pos hpk] at h
      exact absurd h (by simp)
    · rw [if_neg hpk] at h
      rw [alistUpdate_cons, if_neg hpk, ih h]

/-- Lookup after appending one binding at the end: an existing binding
wins, otherwise the new key is found exactly when it matches. -/
theorem alistFind_append (l : List (String × α)) (k0 : String) (v : α)
    (k : String) :
    alistFind (l ++ [(k0, v)]) k =
      match alistFind l k with
      | some x => some x
      | none => if k = k0 then some v else none := by
  induction l with
  | nil =>
    simp only [List.nil_append]
    rw [alistFind_cons]
    by_cases h : k0 = k
    · subst h
      simp [alistFind]
    · have h2 : ¬ k = k0 := fun hh => h hh.symm
      simp [alistFind, h, h2]
  | cons p l ih =>
    rw [List.cons_append, alistFind_cons, alistFind_cons]
    by_cases hpk : p.1 = k
    · simp [hpk]
    · simp [hpk, ih]

/-- C4: `sendFriendRequest` checks its five preconditions in the spec's
stated order, first failure winning, and only when all five hold does it
create and return the new pending `FriendRequest` with status 201. -/
theorem sendFriendRequest_check_order (db : DB)
    (myId recipientId newReqId : String) :
    (∀ e : SendErr, specSendPrecheck db myId recipientId = some e →
       sendFriendRequest db myId recipientId newReqId = (db, e.toResp) ∧
       (sendFriendRequest db myId recipientId newReqId).2.code = e.code) ∧
    (specSendPrecheck db myId recipientId = none →
       lookupReq db newReqId = none →
       sendFriendRequest db myId recipientId newReqId =
         ({ db with requests := db.requests ++
             [(newReqId, { sender := myId, recipient := recipientId,
                           status := .pending })] },
          .created newReqId
            { sender := myId, recipient := recipientId,
              status := .pending }) ∧
       (sendFriendRequest db myId recipientId newReqId).2.code = 201) := by
  unfold sendFriendRequest specSendPrecheck
  by_cases hv : isValidObjectId recipientId
  · by_cases hself : myId = recipientId
    · simp [hv, hself, SendErr.toResp, SendErr.code, SendResp.code]
    · cases hcu : lookupUser db myId with
      | none =>
        simp [hv, hself, hcu, SendErr.toResp, SendErr.code, SendResp.code]
      | some currentUser =>
        cases hru : lookupUser db recipientId with
        | none =>
          simp [hv, hself, hcu, hru, SendErr.toResp, SendErr.code,
            SendResp.code]
        | some recipient =>
          by_cases hf : recipientId ∈ currentUser.friends
              ∨ myId ∈ recipient.friends
          · simp [hv, hself, hcu, hru, hf, SendErr.toResp, SendErr.code,
              SendResp.code]
          · cases hex : findExistingRequest db myId recipientId with
            | some existing =>
              simp [hv, hself, hcu, hru, hf, hex, SendErr.toResp,
                SendErr.code, SendResp.code]
            | none =>
              refine ⟨by simp [hv, hself, hcu, hru, hf, hex], ?_⟩
              intro _ hn
              have hn2 : (lookupReq db newReqId).isSome = false := by
                rw [hn]; rfl
              simp [hv, hself, hcu, hru, hf, hex, hn2, SendResp.code]
  · simp [hv, SendErr.toResp, SendErr.code, SendResp.code]

/-- C5: when a precondition of `acceptFriendRequest` fails, the error
follows the spec's precedence (invalid id 400, missing request 404,
non-recipient caller 403, non-pending status 400) and the database is
left unchanged. -/
theorem acceptFriendRequest_error_precedence (db : DB)
    (callerId requestId : String) (e : AcceptErr)
    (h : specAcceptPrecheck db callerId requestId = some e) :
    acceptFriendRequest db callerId requestId = (db, e.toResp) ∧
    (acceptFriendRequest db callerId requestId).2.code = e.code := by
  unfold acceptFriendRequest
  unfold specAcceptPrecheck at h
  by_cases hv : isValidObjectId requestId
  · cases hfr : lookupReq db requestId with
    | none =>
      simp [hv, hfr] at h
      subst h
      simp [hv, hfr, AcceptErr.toResp, AcceptErr.code, AcceptResp.code]
    | some fr =>
      by_cases hrec : fr.recipient = callerId
      · by_cases hp : fr.status = ReqStatus.pending
        · simp [hv, hfr, hrec, hp] at h
        · simp [hv, hfr, hrec, hp] at h
          subst h
          simp [hv, hfr, hrec, hp, AcceptErr.toResp, AcceptErr.code,
            AcceptResp.code]
      · simp [hv, hfr, hrec] at h
        subst h
        simp [hv, hfr, hrec, AcceptErr.toResp, AcceptErr.code,
          AcceptResp.code]
  · have hv2 : isValidObjectId requestId = false := by
      simpa using hv
    simp [hv2] at h
    subst h
    simp [hv2, AcceptErr.toResp, AcceptErr.code, AcceptResp.code]

/-- The added id is a member after an idempotent add. -/
theorem mem_addToSet_self (l : List String) (x : String) :
    x ∈ addToSet l x := by
  unfold addToSet
  by_cases h : l.contains x
  · rw [if_pos h]
    exact List.mem_of_elem_eq_true h
  · rw [if_neg h]
    exact List.mem_append.mpr (Or.inr (List.mem_singleton.mpr rfl))

/-- The success path of `acceptFriendRequest`: the request flips to
accepted and the two `$addToSet` updates run, in source order. -/
theorem acceptFriendRequest_success (db : DB) (callerId requestId : String)
    (fr : FriendReq)
    (hv : isValidObjectId requestId = true)
    (hfr : lookupReq db requestId = some fr)
    (hrec : fr.recipient = callerId)
    (hp : fr.status = ReqStatus.pending) :
    acceptFriendRequest db callerId requestId =
      ({ users := alistUpdate
            (alistUpdate db.users fr.sender
              (fun u => { u with
                friends := addToSet u.friends fr.recipient }))
            fr.recipient
            (fun u => { u with friends := addToSet u.friends fr.sender }),
         requests := alistUpdate db.requests requestId
            (fun r => { r with status := .accepted }) },
       .accepted) := by
  unfold acceptFriendRequest
  simp [hv, hfr, hrec, hp]

/-- C1: accepting a pending request addressed to the caller sets the
request's status to accepted and adds each party to the other's friend
set with an idempotent add; afterwards each party is in the other's
friend set. -/
theorem acceptFriendRequest_friendship (db : DB) (callerId requestId : String)
    (fr : FriendReq) (su ru : UserRec)
    (hv : isValidObjectId requestId = true)
    (hfr : lookupReq db requestId = some fr)
    (hrec : fr.recipient = callerId)
    (hp : fr.status = ReqStatus.pending)
    (hne : fr.sender ≠ fr.recipient)
    (hsu : lookupUser db fr.sender = some su)
    (hru : lookupUser db fr.recipient = some ru) :
    (acceptFriendRequest db callerId requestId).2 = .accepted ∧
    lookupReq (acceptFriendRequest db callerId requestId).1 requestId =
      some { fr with status := .accepted } ∧
    lookupUser (acceptFriendRequest db callerId requestId).1 fr.sender =
      some { su with friends := addToSet su.friends fr.recipient } ∧
    lookupUser (acceptFriendRequest db callerId requestId).1 fr.recipient =
      some { ru with friends := addToSet ru.friends fr.sender } ∧
    fr.recipient ∈ addToSet su.friends fr.recipient ∧
    fr.sender ∈ addToSet ru.friends fr.sender := by
  rw [acceptFriendRequest_success db callerId requestId fr hv hfr hrec hp]
  have hne2 : fr.recipient ≠ fr.sender := fun h => hne h.symm
  have hfr2 : alistFind db.requests requestId = some fr := hfr
  have hsu2 : alistFind db.users fr.sender = some su := hsu
  have hru2 : alistFind db.users fr.recipient = some ru := hru
  refine ⟨rfl, ?_, ?_, ?_, mem_addToSet_self _ _, mem_addToSet_self _ _⟩
  · simp [lookupReq, alistFind_update, hfr2]
  · simp [lookupUser, alistFind_update, hne, hsu2]
  · simp [lookupUser, alistFind_update, hne2, hru2]

/-- C9: accepting a pending request addressed to the caller succeeds with
200 even when the sender's or the recipient's user record (or both) no
longer exists: each missing record's friend-set update is silently
skipped (the record stays absent, no error), the surviving party's
friend set is still updated, with both missing the users collection is
untouched, and the request still becomes accepted. -/
theorem acceptFriendRequest_missing_users (db : DB)
    (callerId requestId : String) (fr : FriendReq)
    (hv : isValidObjectId requestId = true)
    (hfr : lookupReq db requestId = some fr)
    (hrec : fr.recipient = callerId)
    (hp : fr.status = ReqStatus.pending)
    (hmiss : lookupUser db fr.sender = none ∨
      lookupUser db fr.recipient = none) :
    (acceptFriendRequest db callerId requestId).2 = .accepted ∧
    (acceptFriendRequest db callerId requestId).2.code = 200 ∧
    lookupReq (acceptFriendRequest db callerId requestId).1 requestId =
      some { fr with status := .accepted } ∧
    (lookupUser db fr.sender = none →
      lookupUser (acceptFriendRequest db callerId requestId).1 fr.sender =
        none) ∧
    (lookupUser db fr.recipient = none →
      lookupUser (acceptFriendRequest db callerId requestId).1
        fr.recipient = none) ∧
    (∀ su, lookupUser db fr.sender = some su →
      lookupUser db fr.recipient = none →
      lookupUser (acceptFriendRequest db callerId requestId).1 fr.sender =
        some { su with friends := addToSet su.friends fr.recipient }) ∧
    (∀ ru, lookupUser db fr.recipient = some ru →
      lookupUser db fr.sender = none →
      lookupUser (acceptFriendRequest db callerId requestId).1
        fr.recipient =
        some { ru with friends := addToSet ru.friends fr.sender }) ∧
    (lookupUser db fr.sender = none → lookupUser db fr.recipient = none →
      (acceptFriendRequest db callerId requestId).1.users = db.users) := by
  rw [acceptFriendRequest_success db callerId requestId fr hv hfr hrec hp]
  have hfr2 : alistFind db.requests requestId = some fr := hfr
  refine ⟨rfl, rfl, ?_, ?_, ?_, ?_, ?_, ?_⟩
  · simp [lookupReq, alistFind_update, hfr2]
  · intro hs
    have hs2 : alistFind db.users fr.sender = none := hs
    simp [lookupUser, alistFind_update, hs2]
  · intro hr
    have hr2 : alistFind db.users fr.recipient = none := hr
    simp [lookupUser, alistFind_update, hr2]
  · intro su hsu hr
    have hne : fr.sender ≠ fr.recipient := by
      intro h
      rw [h, hr] at hsu
      cases hsu
    have hsu2 : alistFind db.users fr.sender = some su := hsu
    simp [lookupUser, alistFind_update, hne, hsu2]
  · intro ru hru hs
    have hne : fr.recipient ≠ fr.sender := by
      intro h
      rw [h, hs] at hru
      cases hru
    have hru2 : alistFind db.users fr.recipient = some ru := hru
    simp [lookupUser, alistFind_update, hne, hru2]
  · intro hs hr
    rw [alistUpdate_absent _ _ _ hs, alistUpdate_absent _ _ _ hr]

/-- C7: when the caller's record exists, `getRecommendedUsers` returns
exactly the onboarded users other than the caller and the caller's
current friends; in particular it never contains the caller or a current
friend. -/
theorem getRecommendedUsers_excludes (db : DB) (callerId : String)
    (cu : UserRec) (h : lookupUser db callerId = some cu) :
    ∃ l, getRecommendedUsers db callerId = some l ∧
      (∀ id s, (id, s) ∈ l → id ≠ callerId ∧ id ∉ cu.friends) ∧
      (∀ id u, (id, u) ∈ db.users → u.isOnboarded = true →
        id ≠ callerId → id ∉ cu.friends → (id, summary u) ∈ l) ∧
      (∀ id s, (id, s) ∈ l →
        ∃ u, (id, u) ∈ db.users ∧ u.isOnboarded = true ∧ s = summary u) := by
  unfold getRecommendedUsers
  rw [h]
  refine ⟨_, rfl, ?_, ?_, ?_⟩
  · intro id s hmem
    simp only [List.mem_map, List.mem_filter] at hmem
    obtain ⟨p, ⟨hpmem, hcond⟩, hpe⟩ := hmem
    injection hpe with h1 h2
    subst h1
    simp only [Bool.and_eq_true, Bool.not_eq_true'] at hcond
    obtain ⟨hc1, _⟩ := hcond
    simp at hc1
    exact ⟨hc1.2, hc1.1⟩
  · intro id u hmem honb hnc hnf
    simp only [List.mem_map, List.mem_filter]
    refine ⟨(id, u), ⟨hmem, ?_⟩, rfl⟩
    simp [honb, hnc, hnf]
  · intro id s hmem
    simp only [List.mem_map, List.mem_filter] at hmem
    obtain ⟨p, ⟨hpmem, hcond⟩, hpe⟩ := hmem
    injection hpe with h1 h2
    subst h1
    subst h2
    simp only [Bool.and_eq_true] at hcond
    exact ⟨p.2, hpmem, hcond.2, rfl⟩

/-- A sample onboarded user. -/
def mkUser (name : String) (friends : List String) : UserRec :=
  { fullName := name, profilePic := "pic", nativeLanguage := "english",
    learningLanguage := "spanish", isOnboarded := true, friends := friends }

/-- Helper for C2: after the `match: {_id: {$ne: userId}}` populate and
the null filter, the accepted list is empty for every state and caller,
because every queried request has the caller as one of its parties and
the caller's own populate always resolves to null. -/
theorem getFriendRequests_accepted_nil (db : DB) (userId : String) :
    getFriendRequests_accepted db userId = [] := by
  unfold getFriendRequests_accepted
  rw [List.filter_eq_nil_iff]
  intro e he
  unfold acceptedReqsQuery at he
  simp only [List.mem_map, List.mem_filter] at he
  obtain ⟨p, ⟨hmem, hcond⟩, rfl⟩ := he
  simp only [Bool.and_eq_true, Bool.or_eq_true, beq_iff_eq] at hcond
  obtain ⟨hst, hor⟩ := hcond
  cases hor with
  | inl hs => simp [populateParty, hs]
  | inr hr => simp [populateParty, hr]

/-- Caller and the two parties of the C2 failing input. -/
def dbC2 : DB :=
  { users := [("aaaaaaaaaaaa", mkUser "Alice" ["bbbbbbbbbbbb"]),
              ("bbbbbbbbbbbb", mkUser "Bob" ["aaaaaaaaaaaa"])],
    requests := [("rrrrrrrrrrrr",
      { sender := "aaaaaaaaaaaa", recipient := "bbbbbbbbbbbb",
        status := .accepted })] }

/-- C2: the `accepted` list is always empty, even when an accepted
request of the caller exists and both its parties resolve — refuting the
claim that such requests are returned with both parties expanded. -/
theorem getFriendRequests_accepted_bug :
    (∀ db userId, getFriendRequests_accepted db userId = []) ∧
    acceptedReqsQuery dbC2 "aaaaaaaaaaaa" ≠ [] ∧
    lookupUser dbC2 "aaaaaaaaaaaa" ≠ none ∧
    lookupUser dbC2 "bbbbbbbbbbbb" ≠ none := by
  refine ⟨getFriendRequests_accepted_nil, ?_, ?_, ?_⟩ <;> decide

/-- The C3 counterexample state: a pending request between Alice and a
recipient whose user record is gone. -/
def dbC3 : DB :=
  { users := [("aaaaaaaaaaaa", mkUser "Alice" [])],
    requests := [("rrrrrrrrrrrr",
      { sender := "aaaaaaaaaaaa", recipient := "bbbbbbbbbbbb",
        status := .pending })] }

/-- C3 counterexample: a `FriendRequest` exists between the pair, yet
`sendFriendRequest` answers NotFound (404), not Conflict, because the
recipient's user record is checked first and is missing. -/
theorem sendFriendRequest_conflict_counterexample :
    (findExistingRequest dbC3 "aaaaaaaaaaaa" "bbbbbbbbbbbb").isSome = true ∧
    (sendFriendRequest dbC3 "aaaaaaaaaaaa" "bbbbbbbbbbbb"
        "qqqqqqqqqqqq").2 = SendResp.userNotFound ∧
    (sendFriendRequest dbC3 "aaaaaaaaaaaa" "bbbbbbbbbbbb"
        "qqqqqqqqqqqq").2.code = 404 := by
  decide

/-- C3 (amended): provided the earlier preconditions pass (valid distinct
ids, both records exist, not already friends), an existing request in
either direction yields Conflict — "Request already pending" for a
pending record, "Already connected" otherwise — and the database is
unchanged, so no second request is ever stored. -/
theorem sendFriendRequest_existing_conflict (db : DB)
    (myId recipientId newReqId : String) (fr : FriendReq)
    (cu ru : UserRec)
    (hv : isValidObjectId recipientId = true)
    (hne : myId ≠ recipientId)
    (hcu : lookupUser db myId = some cu)
    (hru : lookupUser db recipientId = some ru)
    (hf1 : recipientId ∉ cu.friends)
    (hf2 : myId ∉ ru.friends)
    (hex : findExistingRequest db myId recipientId = some fr) :
    sendFriendRequest db myId recipientId newReqId =
      (db, .requestConflict
        (if fr.status == ReqStatus.pending then "Request already pending"
         else "Already connected")) ∧
    (sendFriendRequest db myId recipientId newReqId).2.code = 400 := by
  unfold sendFriendRequest
  simp [hv, hne, hcu, hru, hf1, hf2, hex, SendResp.code]

/-- The C3 witness state: Alice and Bob both exist, are not friends, and
an accepted request already links them. -/
def dbC3w : DB :=
  { users := [("aaaaaaaaaaaa", mkUser "Alice" []),
              ("bbbbbbbbbbbb", mkUser "Bob" [])],
    requests := [("rrrrrrrrrrrr",
      { sender := "bbbbbbbbbbbb", recipient := "aaaaaaaaaaaa",
        status := .accepted })] }

theorem sendFriendRequest_existing_conflict_witness :
    sendFriendRequest dbC3w "aaaaaaaaaaaa" "bbbbbbbbbbbb" "qqqqqqqqqqqq" =
      (dbC3w, .requestConflict "Already connected") ∧
    (sendFriendRequest dbC3w "aaaaaaaaaaaa" "bbbbbbbbbbbb"
        "qqqqqqqqqqqq").2.code = 400 := by
  have h := sendFriendRequest_existing_conflict dbC3w
    "aaaaaaaaaaaa" "bbbbbbbbbbbb" "qqqqqqqqqqqq"
    { sender := "bbbbbbbbbbbb", recipient := "aaaaaaaaaaaa",
      status := .accepted }
    (mkUser "Alice" []) (mkUser "Bob" [])
    (by decide) (by decide) (by decide) (by decide) (by decide)
    (by decide) (by decide)
  simpa using h

/-- C10 counterexample: a value is persisted under `"ChatApp"` (the empty
string), yet the initial theme is `"forest"`, not that value, because the
source uses JavaScript `||` and the empty string is falsy. -/
theorem themeStore_init_counterexample :
    (initThemeStore (some "")).storage = some "" ∧
    (initThemeStore (some "")).theme = "forest" ∧
    (initThemeStore (some "")).theme ≠ "" := by
  decide

/-- C10 (amended): the initial theme equals the persisted value when one
exists and is non-empty, and `"forest"` otherwise; and after
`setTheme t` both the store's theme and the persisted value equal `t`. -/
theorem themeStore_roundtrip :
    (∀ s : String, s ≠ "" → (initThemeStore (some s)).theme = s) ∧
    (initThemeStore none).theme = "forest" ∧
    (initThemeStore (some "")).theme = "forest" ∧
    (∀ st : ThemeState, ∀ t : String,
      (setTheme st t).theme = t ∧ (setTheme st t).storage = some t) := by
  refine ⟨?_, rfl, rfl, fun st t => ⟨rfl, rfl⟩⟩
  intro s hs
  simp [initThemeStore, jsOrDefault, hs]

theorem themeStore_roundtrip_witness :
    "dark" ≠ "" ∧ (initThemeStore (some "dark")).theme = "dark" :=
  ⟨by decide, themeStore_roundtrip.1 "dark" (by decide)⟩

/-- On every exit path, `sendFriendRequest` either leaves the database
unchanged or (all checks passed, fresh id) appends exactly one new
pending request. -/
theorem sendFriendRequest_requests_cases (db : DB) (m r n : String) :
    (sendFriendRequest db m r n).1 = db ∨
    ((sendFriendRequest db m r n).1.requests = db.requests ++
        [(n, { sender := m, recipient := r, status := .pending })] ∧
      lookupReq db n = none) := by
  by_cases hv : isValidObjectId r
  · by_cases hself : m = r
    · left
      unfold sendFriendRequest
      simp [hv, hself]
    · cases hcu : lookupUser db m with
      | none =>
        left
        unfold sendFriendRequest
        simp [hv, hself, hcu]
      | some cu =>
        cases hru : lookupUser db r with
        | none =>
          left
          unfold sendFriendRequest
          simp [hv, hself, hcu, hru]
        | some ru =>
          by_cases hf : r ∈ cu.friends ∨ m ∈ ru.friends
          · left
            unfold sendFriendRequest
            simp [hv, hself, hcu, hru, hf]
          · cases hex : findExistingRequest db m r with
            | some ex =>
              left
              unfold sendFriendRequest
              simp [hv, hself, hcu, hru, hf, hex]
            | none =>
              cases hn : lookupReq db n with
              | some x =>
                left
                unfold sendFriendRequest
                simp [hv, hself, hcu, hru, hf, hex, hn]
              | none =>
                right
                refine ⟨?_, rfl⟩
                unfold sendFriendRequest
                simp [hv, hself, hcu, hru, hf, hex, hn]
  · left
    unfold sendFriendRequest
    simp [show isValidObjectId r = false by simpa using hv]

/-- On every exit path, `acceptFriendRequest` either leaves the database
unchanged or (the request exists, pending, addressed to the caller)
rewrites exactly that request's status to accepted. -/
theorem acceptFriendRequest_requests_cases (db : DB) (c r : String) :
    (acceptFriendRequest db c r).1 = db ∨
    (∃ fr : FriendReq, lookupReq db r = some fr ∧ fr.recipient = c ∧
      fr.status = ReqStatus.pending ∧
      (acceptFriendRequest db c r).1.requests =
        alistUpdate db.requests r
          (fun q => { q with status := .accepted })) := by
  by_cases hv : isValidObjectId r
  · cases hfr : lookupReq db r with
    | none =>
      left
      unfold acceptFriendRequest
      simp [hv, hfr]
    | some fr =>
      by_cases hrec : fr.recipient = c
      · by_cases hp : fr.status = ReqStatus.pending
        · right
          refine ⟨fr, rfl, hrec, hp, ?_⟩
          rw [acceptFriendRequest_success db c r fr hv hfr hrec hp]
        · left
          unfold acceptFriendRequest
          simp [hv, hfr, hrec, hp]
      · left
        unfold acceptFriendRequest
        simp [hv, hfr, hrec]
  · left
    unfold acceptFriendRequest
    simp [show isValidObjectId r = false by simpa using hv]

/-- C8: over every single API operation, a stored `FriendRequest` is
never deleted; a newly appearing request has status pending; the only
status change is pending→accepted, performed by `acceptFriendRequest`
invoked by the request's designated recipient; and an already-accepted
request never changes. -/
theorem friendRequest_lifecycle (db : DB) (op : Op) (rid : String) :
    (∀ fr : FriendReq, lookupReq db rid = some fr →
       ∃ fr2 : FriendReq, lookupReq (step db op) rid = some fr2 ∧
         (fr2 = fr ∨
           (fr.status = ReqStatus.pending ∧
            fr2 = { fr with status := .accepted } ∧
            op = .accept fr.recipient rid))) ∧
    (∀ fr2 : FriendReq, lookupReq db rid = none →
       lookupReq (step db op) rid = some fr2 →
       fr2.status = ReqStatus.pending) := by
  cases op with
  | getRecommended c =>
    refine ⟨fun fr h => ⟨fr, h, Or.inl rfl⟩, fun fr2 h h2 => ?_⟩
    simp only [step] at h2
    rw [h] at h2
    simp at h2
  | getFriends c =>
    refine ⟨fun fr h => ⟨fr, h, Or.inl rfl⟩, fun fr2 h h2 => ?_⟩
    simp only [step] at h2
    rw [h] at h2
    simp at h2
  | getRequests c =>
    refine ⟨fun fr h => ⟨fr, h, Or.inl rfl⟩, fun fr2 h h2 => ?_⟩
    simp only [step] at h2
    rw [h] at h2
    simp at h2
  | getOutgoing c =>
    refine ⟨fun fr h => ⟨fr, h, Or.inl rfl⟩, fun fr2 h h2 => ?_⟩
    simp only [step] at h2
    rw [h] at h2
    simp at h2
  | send m r n =>
    have hc := sendFriendRequest_requests_cases db m r n
    constructor
    · intro fr h
      refine ⟨fr, ?_, Or.inl rfl⟩
      simp only [step]
      cases hc with
      | inl he =>
        rw [he]
        exact h
      | inr hee =>
        obtain ⟨he, hn⟩ := hee
        simp only [lookupReq] at h ⊢
        rw [he, alistFind_append, h]
    · intro fr2 h h2
      simp only [step] at h2
      cases hc with
      | inl he =>
        rw [he] at h2
        rw [h] at h2
        simp at h2
      | inr hee =>
        obtain ⟨he, hn⟩ := hee
        simp only [lookupReq] at h h2
        rw [he, alistFind_append, h] at h2
        by_cases hrn : rid = n
        · simp only [hrn, if_pos rfl] at h2
          simp at h2
          rw [← h2]
        · simp only [if_neg hrn] at h2
          simp at h2
  | accept c r =>
    have hc := acceptFriendRequest_requests_cases db c r
    constructor
    · intro fr h
      simp only [step]
      cases hc with
      | inl he =>
        rw [he]
        exact ⟨fr, h, Or.inl rfl⟩
      | inr hee =>
        obtain ⟨fr0, hfr0, hrec0, hp0, he⟩ := hee
        by_cases hrr : rid = r
        · subst hrr
          rw [h] at hfr0
          injection hfr0 with hfr0e
          subst hfr0e
          refine ⟨{ fr with status := ReqStatus.accepted }, ?_,
            Or.inr ⟨hp0, rfl, ?_⟩⟩
          · simp only [lookupReq] at h ⊢
            rw [he, alistFind_update, if_pos rfl, h]
            rfl
          · rw [hrec0]
        · refine ⟨fr, ?_, Or.inl rfl⟩
          simp only [lookupReq] at h ⊢
          rw [he, alistFind_update, if_neg hrr]
          exact h
    · intro fr2 h h2
      simp only [step] at h2
      cases hc with
      | inl he =>
        rw [he] at h2
        rw [h] at h2
        simp at h2
      | inr hee =>
        obtain ⟨fr0, hfr0, hrec0, hp0, he⟩ := hee
        simp only [lookupReq] at h h2
        rw [he, alistFind_update] at h2
        by_cases hrr : rid = r
        · rw [if_pos hrr, h] at h2
          simp at h2
        · rw [if_neg hrr, h] at h2
          simp at h2

/-!  Concrete witness states. -/

/-- An empty database. -/
def dbEmpty : DB := { users := [], requests := [] }

/-- Witness state for C1: Alice and Bob exist, a pending request from
Alice to Bob. -/
def dbC1 : DB :=
  { users := [("aaaaaaaaaaaa", mkUser "Alice" []),
              ("bbbbbbbbbbbb", mkUser "Bob" [])],
    requests := [("rrrrrrrrrrrr",
      { sender := "aaaaaaaaaaaa", recipient := "bbbbbbbbbbbb",
        status := .pending })] }

theorem acceptFriendRequest_friendship_witness :
    (acceptFriendRequest dbC1 "bbbbbbbbbbbb" "rrrrrrrrrrrr").2 =
      AcceptResp.accepted :=
  (acceptFriendRequest_friendship dbC1 "bbbbbbbbbbbb" "rrrrrrrrrrrr"
    { sender := "aaaaaaaaaaaa", recipient := "bbbbbbbbbbbb",
      status := .pending }
    (mkUser "Alice" []) (mkUser "Bob" [])
    (by decide) (by decide) (by decide) (by decide) (by decide)
    (by decide) (by decide)).1

theorem sendFriendRequest_check_order_witness :
    sendFriendRequest dbEmpty "aaaaaaaaaaaa" "aaaaaaaaaaaa" "qqqqqqqqqqqq" =
      (dbEmpty, SendErr.selfRequest.toResp) ∧
    (sendFriendRequest dbEmpty "aaaaaaaaaaaa" "aaaaaaaaaaaa"
        "qqqqqqqqqqqq").2.code = SendErr.selfRequest.code :=
  (sendFriendRequest_check_order dbEmpty "aaaaaaaaaaaa" "aaaaaaaaaaaa"
    "qqqqqqqqqqqq").1 .selfRequest (by decide)

theorem acceptFriendRequest_error_precedence_witness :
    acceptFriendRequest dbEmpty "aaaaaaaaaaaa" "xy" =
      (dbEmpty, AcceptErr.invalidRequestId.toResp) ∧
    (acceptFriendRequest dbEmpty "aaaaaaaaaaaa" "xy").2.code =
      AcceptErr.invalidRequestId.code :=
  acceptFriendRequest_error_precedence dbEmpty "aaaaaaaaaaaa" "xy"
    .invalidRequestId (by decide)

/-- Witness state for C7: the caller Alice is friends with Bob; Carol is
an onboarded stranger. -/
def dbC7 : DB :=
  { users := [("aaaaaaaaaaaa", mkUser "Alice" ["bbbbbbbbbbbb"]),
              ("bbbbbbbbbbbb", mkUser "Bob" ["aaaaaaaaaaaa"]),
              ("cccccccccccc", mkUser "Carol" [])],
    requests := [] }

theorem getRecommendedUsers_excludes_witness :
    ∃ l, getRecommendedUsers dbC7 "aaaaaaaaaaaa" = some l ∧
      (∀ id s, (id, s) ∈ l → id ≠ "aaaaaaaaaaaa" ∧
        id ∉ (mkUser "Alice" ["bbbbbbbbbbbb"]).friends) ∧
      (∀ id u, (id, u) ∈ dbC7.users → u.isOnboarded = true →
        id ≠ "aaaaaaaaaaaa" →
        id ∉ (mkUser "Alice" ["bbbbbbbbbbbb"]).friends →
        (id, summary u) ∈ l) ∧
      (∀ id s, (id, s) ∈ l →
        ∃ u, (id, u) ∈ dbC7.users ∧ u.isOnboarded = true ∧
          s = summary u) :=
  getRecommendedUsers_excludes dbC7 "aaaaaaaaaaaa"
    (mkUser "Alice" ["bbbbbbbbbbbb"]) (by decide)

/-- Witness state for C8: same shape as the C1 witness state. -/
def dbC8 : DB :=
  { users := [("aaaaaaaaaaaa", mkUser "Alice" []),
              ("bbbbbbbbbbbb", mkUser "Bob" [])],
    requests := [("rrrrrrrrrrrr",
      { sender := "aaaaaaaaaaaa", recipient := "bbbbbbbbbbbb",
        status := .pending })] }

theorem friendRequest_lifecycle_witness :
    ∃ fr2 : FriendReq,
      lookupReq (step dbC8 (Op.accept "bbbbbbbbbbbb" "rrrrrrrrrrrr"))
        "rrrrrrrrrrrr" = some fr2 ∧
      (fr2 = { sender := "aaaaaaaaaaaa", recipient := "bbbbbbbbbbbb",
               status := .pending } ∨
        (ReqStatus.pending = ReqStatus.pending ∧
         fr2 = { sender := "aaaaaaaaaaaa", recipient := "bbbbbbbbbbbb",
                 status := .accepted } ∧
         Op.accept "bbbbbbbbbbbb" "rrrrrrrrrrrr" =
           Op.accept "bbbbbbbbbbbb" "rrrrrrrrrrrr")) :=
  (friendRequest_lifecycle dbC8 (Op.accept "bbbbbbbbbbbb" "rrrrrrrrrrrr")
    "rrrrrrrrrrrr").1
    { sender := "aaaaaaaaaaaa", recipient := "bbbbbbbbbbbb",
      status := .pending } (by decide)

/-- Witness state for C9: a pending request whose sender record is gone
while the recipient (Bob) still exists — the "only one friend set
updated" configuration. -/
def dbC9 : DB :=
  { users := [("bbbbbbbbbbbb", mkUser "Bob" [])],
    requests := [("rrrrrrrrrrrr",
      { sender := "aaaaaaaaaaaa", recipient := "bbbbbbbbbbbb",
        status := .pending })] }

theorem acceptFriendRequest_missing_users_witness :
    (acceptFriendRequest dbC9 "bbbbbbbbbbbb" "rrrrrrrrrrrr").2 =
      AcceptResp.accepted ∧
    lookupUser (acceptFriendRequest dbC9 "bbbbbbbbbbbb" "rrrrrrrrrrrr").1
      "aaaaaaaaaaaa" = none ∧
    lookupUser (acceptFriendRequest dbC9 "bbbbbbbbbbbb" "rrrrrrrrrrrr").1
      "bbbbbbbbbbbb" = some (mkUser "Bob" ["aaaaaaaaaaaa"]) :=
  ⟨(acceptFriendRequest_missing_users dbC9 "bbbbbbbbbbbb" "rrrrrrrrrrrr"
      { sender := "aaaaaaaaaaaa", recipient := "bbbbbbbbbbbb",
        status := .pending }
      (by decide) (by decide) (by decide) (by decide)
      (Or.inl (by decide))).1,
   (acceptFriendRequest_missing_users dbC9 "bbbbbbbbbbbb" "rrrrrrrrrrrr"
      { sender := "aaaaaaaaaaaa", recipient := "bbbbbbbbbbbb",
        status := .pending }
      (by decide) (by decide) (by decide) (by decide)
      (Or.inl (by decide))).2.2.2.1 (by decide),
   (acceptFriendRequest_missing_users dbC9 "bbbbbbbbbbbb" "rrrrrrrrrrrr"
      { sender := "aaaaaaaaaaaa", recipient := "bbbbbbbbbbbb",
        status := .pending }
      (by decide) (by decide) (by decide) (by decide)
      (Or.inl (by decide))).2.2.2.2.2.2.1 (mkUser "Bob" [])
     (by decide) (by decide)⟩

end LearnSathi
